import Mathlib

/-!
# Verification of the city transit assistant (route composer, rankers, parser, frontend)

Shallow embedding of the parts of the voice travel assistant that the checked
properties are about: the Walking Option Removal filter and cheapest/fastest
sorting from the debugging log, the elderly comfort scoring from the frontend
and backend docs, the intent-parser pattern cascade and city detection, the
ride fare estimation from the README, and the frontend chat/app JavaScript
(`translateText`, `transcribeAudio`, `formatRouteResponse`, language state).
Machine floats are modelled as rationals; fallible code returns `Option` or
`Except`.
-/

namespace TransitAssistant

/-! ## Data model: route options -/

/-- Travel modes of a `RouteOption` (the code stores them as strings such as
"Walk", "Bus"; co-domain modelled as an enumeration). -/
inductive Mode where
  | walk
  | bus
  | metro
  | auto
  | taxi
  deriving DecidableEq

/-- A single route option as produced by the composer: mode, cost (rupees),
time (minutes), and the mode-specific comfort attributes used by the elderly
ranking (`ac`, `seating`, `door_to_door`, `transfers`, `walking_m`). -/
structure RouteOption where
  mode : Mode
  cost : ℚ
  time : ℚ
  ac : Bool
  seating : Bool
  door_to_door : Bool
  transfers : ℕ
  walking_m : ℚ
  deriving DecidableEq

/-! ## Walking Option Removal (debugging log, "Walking Option Removal")

The log's fix is
`all_options = [opt for opt in all_options if opt['mode'] != 'Walk']`,
applied unconditionally to the composed option list. -/

/-- The Walking Option Removal filter from the debugging log: every option
whose mode is Walk is dropped from `all_options`. -/
def removeWalking (all_options : List RouteOption) : List RouteOption :=
  all_options.filter (fun opt => decide (opt.mode ≠ Mode.walk))

/-- A standalone walk option for a trip of `distKm` kilometres (cost 0; time
proportional to distance; all walking). -/
def mkWalkOption (distKm : ℚ) : RouteOption :=
  { mode := Mode.walk, cost := 0, time := 12 * distKm, ac := false,
    seating := false, door_to_door := false, transfers := 0,
    walking_m := 1000 * distKm }

/-- Modelled from the spec: per-mode option generation of the Route Composer
(hybrid_router.py is not among the provided sources). A standalone Walk option
is generated exactly when the great-circle distance is below the short 1 km
threshold; the options of the remaining modes are passed through unchanged. -/
def composeRawOptions (distKm : ℚ) (others : List RouteOption) : List RouteOption :=
  if distKm < 1 then mkWalkOption distKm :: others else others

/-- The composed output list actually returned: the raw per-mode options with
the Walking Option Removal filter of the debugging log applied. -/
def composerOutput (distKm : ℚ) (others : List RouteOption) : List RouteOption :=
  removeWalking (composeRawOptions distKm others)

/-- A sample auto option used for concrete evaluations. -/
def sampleAuto : RouteOption :=
  { mode := Mode.auto, cost := 45, time := 5, ac := false, seating := true,
    door_to_door := true, transfers := 0, walking_m := 0 }

/-! ## Elderly comfort score (FRONTEND.md `calculate_comfort_score`,
BACKEND.md comfort scoring factor table)

The snippet is
`if option.get("ac"): score += 20`,
`if option.get("door_to_door"): score += 25`,
`if option.get("walking_m", 500) < 100: score += 20`, plus the remaining
factors of the documented table: guaranteed seating +15, +10 per transfer
avoided relative to the option with the most transfers, off-peak +5. -/

/-- calculate_comfort_score, from the FRONTEND.md code snippet together with
the BACKEND.md factor table. `maxTransfers` is the transfer count of the
option with the most transfers in the set (for the transfers-avoided term)
and `offPeak` whether the computation happens in an off-peak window. -/
def calculate_comfort_score (opt : RouteOption) (maxTransfers : ℕ) (offPeak : Bool) : ℤ :=
  (if opt.ac then 20 else 0)
    + (if opt.door_to_door then 25 else 0)
    + (if opt.walking_m < 100 then 20 else 0)
    + (if opt.seating then 15 else 0)
    + 10 * ((maxTransfers : ℤ) - (opt.transfers : ℤ))
    + (if offPeak then 5 else 0)

/-- The walking contribution as the spec sentence describes it, for the
refinement comparison of claim C2: up to +20 scaled linearly down to 0 as
walking_m rises from 0 to 500. -/
def walkingTermSpec (walking_m : ℚ) : ℚ :=
  20 * (1 - walking_m / 500)

/-- A sample bus option with a given walking distance, otherwise fixed. -/
def sampleBus (wm : ℚ) : RouteOption :=
  { mode := Mode.bus, cost := 25, time := 46, ac := false, seating := false,
    door_to_door := false, transfers := 0, walking_m := wm }

/-! ## Student ranking (debugging log "Cheapest/Fastest Logic")

The log's fix is
`sorted_by_cost = sorted(all_options, key=lambda x: x['cost'])` (cheapest) and
`sorted_by_time = sorted(all_options, key=lambda x: x['time'])` (fastest).
Python's `sorted` is a stable sort; it is embedded as insertion sort, which is
also stable, so the resulting lists agree. -/

/-- Comparison by cost, the sort key of `sorted_by_cost`. -/
def costLE (a b : RouteOption) : Prop := a.cost ≤ b.cost

/-- Comparison by time, the sort key of `sorted_by_time`. -/
def timeLE (a b : RouteOption) : Prop := a.time ≤ b.time

instance : DecidableRel costLE :=
  fun a b => inferInstanceAs (Decidable (a.cost ≤ b.cost))

instance : DecidableRel timeLE :=
  fun a b => inferInstanceAs (Decidable (a.time ≤ b.time))

instance : IsTotal RouteOption costLE :=
  ⟨fun a b => le_total a.cost b.cost⟩

instance : IsTrans RouteOption costLE :=
  ⟨fun _ _ _ h₁ h₂ => le_trans h₁ h₂⟩

instance : IsTotal RouteOption timeLE :=
  ⟨fun a b => le_total a.time b.time⟩

instance : IsTrans RouteOption timeLE :=
  ⟨fun _ _ _ h₁ h₂ => le_trans h₁ h₂⟩

/-- sorted_by_cost from the debugging log: the option list stably sorted by
cost ascending. -/
def sorted_by_cost (all_options : List RouteOption) : List RouteOption :=
  List.insertionSort costLE all_options

/-- sorted_by_time from the debugging log: the option list stably sorted by
time ascending. -/
def sorted_by_time (all_options : List RouteOption) : List RouteOption :=
  List.insertionSort timeLE all_options

/-- Modelled from the spec: the student ranking's headline picks
(student_optimizer.py is not among the provided sources — only the two sort
lines and the documented output shape): `cheapest` is the first entry of the
cost-sorted list, `fastest` the first entry of the time-sorted list. -/
def cheapest (all_options : List RouteOption) : Option RouteOption :=
  (sorted_by_cost all_options).head?

/-- The fastest pick: first entry of the time-sorted list (see `cheapest`). -/
def fastest (all_options : List RouteOption) : Option RouteOption :=
  (sorted_by_time all_options).head?

/-! ## Intent parser and city detection (debugging log, BACKEND.md §Intent Parser) -/

/-- A lowercase word token of the normalized query text. -/
abbrev Token := String

/-- A place as the parser reports it: a named place (its tokens) or the
current_location sentinel used when no origin is given. -/
inductive Place where
  | currentLocation
  | named (tokens : List Token)
  deriving DecidableEq

/-- The parsed intent: origin and destination places. -/
structure Intent where
  origin : Place
  destination : Place
  deriving DecidableEq

/-- Split a token list at the first occurrence of `sep`: the tokens before it
and the tokens after it, or none when `sep` does not occur. -/
def splitFirst (sep : Token) : List Token → Option (List Token × List Token)
  | [] => none
  | t :: rest =>
    if t = sep then some ([], rest)
    else
      match splitFirst sep rest with
      | some (pre, post) => some (t :: pre, post)
      | none => none

/-- Modelled from the spec: the fixed-priority pattern cascade of the intent
parser — intent_parser.py is not among the provided sources, only the Pattern
2.5 regex (first group, the word "from", second group; both groups non-empty;
leftmost, non-greedy first group) and the documented pattern list. Text is
modelled as its list of lowercase word tokens. Patterns, first match wins:
"from X to Y" (origin X, destination Y); "X to Y" (origin X, destination Y);
"X from Y" (Pattern 2.5: origin Y, destination X); "to X from Y" (origin Y,
destination X); a single place with no origin marker (origin is the
current_location sentinel). No match is a parse failure. -/
def parseIntent (tokens : List Token) : Option Intent :=
  match splitFirst "to" tokens with
  | some (pre, post) =>
    match pre with
    | [] =>
      match splitFirst "from" post with
      | some (x, y) =>
        if x ≠ [] ∧ y ≠ [] then some ⟨Place.named y, Place.named x⟩ else none
      | none =>
        if post ≠ [] then some ⟨Place.currentLocation, Place.named post⟩ else none
    | "from" :: x =>
      if x ≠ [] ∧ post ≠ [] then some ⟨Place.named x, Place.named post⟩ else none
    | _ =>
      if post ≠ [] then some ⟨Place.named pre, Place.named post⟩ else none
  | none =>
    match splitFirst "from" tokens with
    | some (x, y) =>
      if x ≠ [] ∧ y ≠ [] then some ⟨Place.named y, Place.named x⟩ else none
    | none =>
      if tokens ≠ [] then some ⟨Place.currentLocation, Place.named tokens⟩ else none

/-- The Mumbai detection keywords from the debugging log. -/
def MUMBAI_KEYWORDS : List String := ["dadar", "andheri", "bandra", "kurla", "thane"]

/-- The default city returned when no keyword set matches. -/
def DEFAULT_CITY : String := "bengaluru"

/-- The per-city keyword table scanned in order; only Mumbai has keywords,
every other query falls through to the default city. -/
def CITY_KEYWORDS : List (String × List String) := [("mumbai", MUMBAI_KEYWORDS)]

/-- Keyword containment, the `kw in query` test of the code: the keyword
occurs as a contiguous substring of the query (compared as char lists). -/
def containsKeyword (query kw : String) : Bool :=
  decide (kw.data <:+: query.data)

/-- City detection from the debugging log: the first city in the table one of
whose keywords occurs in the query wins; otherwise the default city. -/
def detect_city (query : String) : String :=
  match CITY_KEYWORDS.find? (fun ck => ck.2.any (containsKeyword query)) with
  | some ck => ck.1
  | none => DEFAULT_CITY

/-- The lowercase word tokens of a query. -/
def tokenize (query : String) : List Token :=
  (query.toLower.splitOn " ").filter (fun t => t != "")

/-- Full intent of a query: extracted origin/destination plus detected city. -/
structure FullIntent where
  intent : Intent
  city : String
  deriving DecidableEq

/-- The query pipeline: origin/destination extraction from the tokens plus the
independent city detection step; extraction failure is its only failure. -/
def parseQuery (query : String) : Option FullIntent :=
  (parseIntent (tokenize query)).map (fun i => ⟨i, detect_city query⟩)

/-! ## Frontend API calls (chat.js `translateText`, `transcribeAudio`)

Both wrap `fetch` in try/catch: a network error or a non-OK HTTP status is
caught and turned into a degraded fallback return value, never rethrown. -/

/-- The observable outcome of a `fetch` call: a network error (the promise
rejected), or an HTTP response with its `ok` flag and parsed JSON body. -/
inductive FetchOutcome (β : Type) where
  | networkError
  | response (ok : Bool) (body : β)

/-- Whether the outcome takes the catch path in the code: a network error, or
a response whose `ok` flag is false (the code throws `HTTP status` on it and
catches its own throw). -/
def FetchOutcome.isFailure {β : Type} : FetchOutcome β → Prop
  | .networkError => True
  | .response ok _ => ok = false

/-- The JSON shape of the `/translate` endpoint and of `translateText`'s
return value. -/
structure TranslateResult where
  translated_text : String
  error : Option String
  deriving DecidableEq

/-- The JSON shape of the `/transcribe` endpoint and of `transcribeAudio`'s
return value. -/
structure TranscribeResult where
  text : String
  error : Option String
  deriving DecidableEq

/-- translateText from chat.js: on a successful OK response the parsed body is
returned as-is; a network error or non-OK status is caught and the original
text is returned untranslated together with an error message. -/
def translateText (text : String) (outcome : FetchOutcome TranslateResult) :
    TranslateResult :=
  match outcome with
  | .response true body => body
  | .response false _ => { translated_text := text, error := some "Translation failed" }
  | .networkError => { translated_text := text, error := some "Translation failed" }

/-- transcribeAudio from chat.js: on a successful OK response the parsed body
is returned as-is; a network error or non-OK status is caught and an empty
text with an error message is returned. -/
def transcribeAudio (_base64Audio : String) (outcome : FetchOutcome TranscribeResult) :
    TranscribeResult :=
  match outcome with
  | .response true body => body
  | .response false _ =>
    { text := "", error := some "Transcription failed. Please try again." }
  | .networkError =>
    { text := "", error := some "Transcription failed. Please try again." }

/-! ## Ride pricing (README.md `get_estimated_ride_prices`) -/

/-- The per-service fare rates: base fare plus per-kilometre rate. -/
structure RideRates where
  base : ℚ
  per_km : ℚ
  deriving DecidableEq

/-- BASE_RATES from get_estimated_ride_prices. -/
def BASE_RATES : List (String × RideRates) :=
  [("auto", ⟨30, 15⟩), ("ola_micro", ⟨50, 12⟩), ("uber_go", ⟨55, 13⟩),
    ("rapido_bike", ⟨20, 8⟩), ("namma_yatri_auto", ⟨25, 14⟩)]

/-- The fare arithmetic of get_estimated_ride_prices for one service:
`base_fare = base + distance_km * per_km`, `surged_fare = base_fare *
surge_multiplier`, reported as `int(surged_fare)`; the truncation is modelled
as the floor, which agrees with Python's `int()` on the non-negative fares
involved. -/
def estimated_price (rates : RideRates) (distance_km surge_multiplier : ℚ) : ℤ :=
  ⌊(rates.base + distance_km * rates.per_km) * surge_multiplier⌋

/-! ## Route response rendering (chat.js `formatRouteResponse`)

The function destructures the payload, renders each present option through
`formatOption` (which returns the empty string on an absent option), and then
chooses the block to emit: with `most_comfortable` present it shows it plus a
differing `cheapest`; otherwise it shows `cheapest`, `fastest`, and then
evaluates `door_to_door && door_to_door.cost !== fastest.cost` — an access to
`fastest.cost` that is NOT guarded by `fastest` being present. A JavaScript
member access on `undefined` throws a TypeError; it is modelled as the
`Except.error` branch. -/

/-- One option of the response payload as the formatter reads it. -/
structure DisplayOption where
  mode : String
  cost : ℚ
  time : ℚ
  steps : List String
  comfort_score : Option ℤ
  capacity_note : Option String
  deriving DecidableEq

/-- The response payload consumed by formatRouteResponse; each headline pick
may be absent. -/
structure RoutePayload where
  origin : String
  destination : String
  cheapest : Option DisplayOption
  fastest : Option DisplayOption
  door_to_door : Option DisplayOption
  most_comfortable : Option DisplayOption
  deriving DecidableEq

/-- formatOption from chat.js: the empty string on an absent option, else the
card text built from the option's fields (label, mode, cost, time, optional
comfort badge and capacity note, numbered steps). -/
def formatOption (label icon : String) (option : Option DisplayOption) : String :=
  match option with
  | none => ""
  | some o =>
    label ++ " " ++ icon ++ " " ++ o.mode ++ " Rs" ++ toString o.cost
      ++ " " ++ toString o.time ++ " mins "
      ++ (match o.comfort_score with
          | some s => "Comfort: " ++ toString s ++ "/100 "
          | none => "")
      ++ (match o.capacity_note with
          | some n => n ++ " "
          | none => "")
      ++ String.intercalate ", " o.steps

/-- The surrounding page markup around the rendered option cards. -/
def renderPage (origin destination optionsHtml : String) : String :=
  "Route Plan: " ++ origin ++ " to " ++ destination ++ " " ++ optionsHtml
    ++ " Click Show Detailed Directions to see step-by-step navigation"

/-- formatRouteResponse from chat.js. With `most_comfortable` present: show it
and, when `cheapest` differs from it in mode or cost, also `cheapest`.
Otherwise: show `cheapest` and `fastest` when present, then evaluate
`door_to_door && door_to_door.cost !== fastest.cost`; when `door_to_door` is
present this reads `fastest.cost`, which throws a TypeError if `fastest` is
absent — the error branch. -/
def formatRouteResponse (data : RoutePayload) : Except String String :=
  match data.most_comfortable with
  | some mc =>
    let base := formatOption "mostPreferred" "star" (some mc)
    match data.cheapest with
    | some ch =>
      if ch.mode ≠ mc.mode ∨ ch.cost ≠ mc.cost then
        Except.ok (renderPage data.origin data.destination
          (base ++ formatOption "cheapestOption" "money" (some ch)))
      else
        Except.ok (renderPage data.origin data.destination base)
    | none => Except.ok (renderPage data.origin data.destination base)
  | none =>
    let s₁ := formatOption "cheapestOption" "money" data.cheapest
    let s₂ := formatOption "fastestOption" "bolt" data.fastest
    match data.door_to_door with
    | none => Except.ok (renderPage data.origin data.destination (s₁ ++ s₂))
    | some d =>
      match data.fastest with
      | none => Except.error "TypeError: cannot read properties of undefined (reading cost)"
      | some f =>
        if d.cost ≠ f.cost then
          Except.ok (renderPage data.origin data.destination
            (s₁ ++ s₂ ++ formatOption "doorToDoor" "car" (some d)))
        else
          Except.ok (renderPage data.origin data.destination (s₁ ++ s₂))

/-- A sample display option for concrete payloads. -/
def sampleDisplay : DisplayOption :=
  { mode := "Auto", cost := 132, time := 21, steps := [],
    comfort_score := none, capacity_note := none }

/-- The payload that crashes the formatter: most_comfortable absent,
door_to_door present, fastest absent. -/
def d2dOnlyPayload : RoutePayload :=
  { origin := "hebbal", destination := "majestic", cheapest := none,
    fastest := none, door_to_door := some sampleDisplay, most_comfortable := none }

/-- A payload with every headline pick absent. -/
def emptyPayload : RoutePayload :=
  { origin := "hebbal", destination := "majestic", cheapest := none,
    fastest := none, door_to_door := none, most_comfortable := none }

/-! ## Frontend language state (app.js CONFIG, setLanguage, loadSavedPreferences) -/

/-- CONFIG.SUPPORTED_LANGUAGES from app.js. -/
def SUPPORTED_LANGUAGES : List String := ["en", "hi", "kn"]

/-- CONFIG.DEFAULT_LANGUAGE from app.js. -/
def DEFAULT_LANGUAGE : String := "en"

/-- The language-relevant frontend state: `state.language` plus the language
slot of localStorage (which other pages or the user may overwrite with
arbitrary content). -/
structure AppState where
  language : String
  storedLanguage : Option String
  deriving DecidableEq

/-- The state at script load: `state.language = CONFIG.DEFAULT_LANGUAGE`,
nothing stored yet. -/
def initState : AppState :=
  { language := DEFAULT_LANGUAGE, storedLanguage := none }

/-- setLanguage from app.js: an unsupported argument is replaced by the
default language, then both the state and localStorage are updated. -/
def setLanguage (lang : String) (s : AppState) : AppState :=
  let l := if lang ∈ SUPPORTED_LANGUAGES then lang else DEFAULT_LANGUAGE
  { s with language := l, storedLanguage := some l }

/-- loadSavedPreferences (language part) from app.js: a stored value is
adopted only when it is truthy and in the supported set; otherwise the state
is left unchanged. -/
def loadSavedPreferences (s : AppState) : AppState :=
  match s.storedLanguage with
  | some savedLang =>
    if savedLang ∈ SUPPORTED_LANGUAGES then { s with language := savedLang } else s
  | none => s

/-- The events that touch the language state: a setLanguage call, an external
write to the localStorage slot, and a loadSavedPreferences call. -/
inductive AppEvent where
  | setLang (lang : String)
  | storageWrite (value : Option String)
  | loadPrefs

/-- One step of the language state machine. -/
def appStep (s : AppState) : AppEvent → AppState
  | .setLang lang => setLanguage lang s
  | .storageWrite v => { s with storedLanguage := v }
  | .loadPrefs => loadSavedPreferences s

end TransitAssistant

namespace TransitAssistant

/-! ## Theorems for claims C1, C2, C5 -/

/-- C1 counterexample: the claim says that for a pair whose great-circle
distance is below the 1 km threshold the composer offers a standalone Walk
option; at the concrete distance 0.5 km (with an auto option alongside) the
output contains no Walk option, because the Walking Option Removal filter
drops Walk unconditionally. -/
theorem C1_counterexample :
    ¬ ∃ o ∈ composerOutput (1 / 2) [sampleAuto], o.mode = Mode.walk := by
  have h : ((1 : ℚ) / 2) < 1 := by norm_num
  simp [composerOutput, composeRawOptions, if_pos h, removeWalking,
    List.filter, mkWalkOption, sampleAuto]

/-- C1 (amended): Walk never appears as a standalone option in the composed
output list, for every distance — in particular for every pair at or above
the threshold — because the Walking Option Removal filter removes every
Walk-mode option regardless of distance. -/
theorem C1_walk_never_offered (distKm : ℚ) (others : List RouteOption) :
    ∀ o ∈ composerOutput distKm others, o.mode ≠ Mode.walk := by
  intro o ho
  have h := List.of_mem_filter ho
  exact of_decide_eq_true h

/-- Witness for C1 (amended) at the concrete distance 0.5 km: the sample auto
option survives the filter and is indeed not a Walk option. -/
theorem C1_walk_never_offered_witness :
    sampleAuto ∈ composerOutput (1 / 2) [sampleAuto] ∧ sampleAuto.mode ≠ Mode.walk := by
  have hmem : sampleAuto ∈ composerOutput (1 / 2) [sampleAuto] := by
    simp only [composerOutput, composeRawOptions, removeWalking, mkWalkOption, sampleAuto]
    norm_num [List.filter]
    decide
  exact ⟨hmem, C1_walk_never_offered (1 / 2) [sampleAuto] sampleAuto hmem⟩

/-- C2 counterexample: the claim says the walking term falls strictly
linearly from +20 at 0 to 0 at 500, so of two otherwise-identical options
with walking_m strictly between 0 and 500 the smaller one must score strictly
higher, and the drop from 0 to 150 metres must be 20 * 150 / 500 = 6 points.
In the code the walking term is a threshold (+20 below 100 m, else 0): at
walking_m 150 and 250 the comfort scores are equal, and the actual drop from
0 to 150 metres is 20 points, not the 6 the linear rule predicts. -/
theorem C2_counterexample :
    calculate_comfort_score (sampleBus 150) 0 false
        = calculate_comfort_score (sampleBus 250) 0 false
      ∧ ((calculate_comfort_score (sampleBus 0) 0 false : ℚ)
            - (calculate_comfort_score (sampleBus 150) 0 false : ℚ)
          ≠ walkingTermSpec 0 - walkingTermSpec 150) := by
  constructor
  · decide
  · intro h
    norm_num [calculate_comfort_score, walkingTermSpec, sampleBus] at h

/-- C2 (amended): the walking term of the comfort score is a threshold, not a
linear scale: holding everything else fixed, an option with walking_m below
100 scores exactly 20 points more than one with walking_m at or above 100,
and two options on the same side of the 100 m threshold score equally; hence
the score is antitone (not strictly) in walking_m. -/
theorem C2_walking_threshold (opt : RouteOption) (w₁ w₂ : ℚ) (maxT : ℕ)
    (offPeak : Bool) (h : w₁ ≤ w₂) :
    calculate_comfort_score { opt with walking_m := w₂ } maxT offPeak
        ≤ calculate_comfort_score { opt with walking_m := w₁ } maxT offPeak
      ∧ calculate_comfort_score { opt with walking_m := w₁ } maxT offPeak
          = calculate_comfort_score { opt with walking_m := w₂ } maxT offPeak
            + (if w₁ < 100 ∧ ¬ w₂ < 100 then 20 else 0) := by
  have hcase : (w₁ < 100 ∧ w₂ < 100) ∨ (w₁ < 100 ∧ ¬ w₂ < 100) ∨ (¬ w₁ < 100 ∧ ¬ w₂ < 100) := by
    by_cases h₁ : w₁ < 100 <;> by_cases h₂ : w₂ < 100
    · exact Or.inl ⟨h₁, h₂⟩
    · exact Or.inr (Or.inl ⟨h₁, h₂⟩)
    · exact absurd (lt_of_le_of_lt h h₂) h₁
    · exact Or.inr (Or.inr ⟨h₁, h₂⟩)
  rcases hcase with ⟨h₁, h₂⟩ | ⟨h₁, h₂⟩ | ⟨h₁, h₂⟩ <;>
    simp only [calculate_comfort_score, h₁, h₂, if_true, if_false, and_true,
      and_false, not_true, not_false_iff] <;>
    constructor <;> omega

/-- Witness for C2 (amended) at walking_m 50 versus 150 on the sample bus
option: the score with 150 m is 20 points below the score with 50 m. -/
theorem C2_walking_threshold_witness :
    (50 : ℚ) ≤ 150
      ∧ (calculate_comfort_score { sampleBus 0 with walking_m := 150 } 0 false
            ≤ calculate_comfort_score { sampleBus 0 with walking_m := 50 } 0 false
          ∧ calculate_comfort_score { sampleBus 0 with walking_m := 50 } 0 false
              = calculate_comfort_score { sampleBus 0 with walking_m := 150 } 0 false
                + (if (50 : ℚ) < 100 ∧ ¬ (150 : ℚ) < 100 then 20 else 0)) :=
  ⟨by norm_num, C2_walking_threshold (sampleBus 0) 50 150 0 false (by norm_num)⟩

/-- C5: toggling `ac` from false to true on an option, holding every other
attribute (and the context: most transfers in the set, off-peak flag) fixed,
increases its comfort score by exactly the ac weight, +20. -/
theorem C5_ac_toggle (opt : RouteOption) (maxTransfers : ℕ) (offPeak : Bool) :
    calculate_comfort_score { opt with ac := true } maxTransfers offPeak
      = calculate_comfort_score { opt with ac := false } maxTransfers offPeak + 20 := by
  simp [calculate_comfort_score]
  ring

/-! ## Theorems for claim C3 -/

/-- The first entry of an insertion-sorted list is a minimum of the original
list with respect to the (total, transitive) sort relation. -/
theorem head_insertionSort_min {α : Type} (r : α → α → Prop) [DecidableRel r]
    [IsTotal α r] [IsTrans α r] (l : List α) (a : α)
    (ha : (l.insertionSort r).head? = some a) :
    ∀ b ∈ l, r a b := by
  have hs := List.sorted_insertionSort r l
  cases hsort : l.insertionSort r with
  | nil => rw [hsort] at ha; cases ha
  | cons x t =>
    rw [hsort] at ha hs
    injection ha with hxa
    subst hxa
    intro b hb
    have hb' : b ∈ x :: t := by
      rw [← hsort]
      exact (List.mem_insertionSort r).mpr hb
    rcases List.mem_cons.mp hb' with rfl | hbt
    · exact (total_of r b b).elim id id
    · exact List.rel_of_sorted_cons hs b hbt

/-- C3: for a non-empty option list the student ranking returns a cheapest
pick whose cost is ≤ every option's cost and a fastest pick whose time is ≤
every option's time, and the cost-sorted list that is also returned is sorted
ascending by cost and is a permutation of the input options. -/
theorem C3_student_ranking (all_options : List RouteOption) (h : all_options ≠ []) :
    ∃ c f, cheapest all_options = some c ∧ fastest all_options = some f
      ∧ (∀ o ∈ all_options, c.cost ≤ o.cost)
      ∧ (∀ o ∈ all_options, f.time ≤ o.time)
      ∧ List.Sorted costLE (sorted_by_cost all_options)
      ∧ (sorted_by_cost all_options).Perm all_options := by
  have hpc : (List.insertionSort costLE all_options).Perm all_options :=
    List.perm_insertionSort costLE all_options
  have hpt : (List.insertionSort timeLE all_options).Perm all_options :=
    List.perm_insertionSort timeLE all_options
  have hnc : List.insertionSort costLE all_options ≠ [] := by
    intro hnil
    apply h
    have hlen := hpc.length_eq
    rw [hnil] at hlen
    exact List.length_eq_zero.mp hlen.symm
  have hnt : List.insertionSort timeLE all_options ≠ [] := by
    intro hnil
    apply h
    have hlen := hpt.length_eq
    rw [hnil] at hlen
    exact List.length_eq_zero.mp hlen.symm
  obtain ⟨c, tc, hc⟩ := List.exists_cons_of_ne_nil hnc
  obtain ⟨f, tf, hf⟩ := List.exists_cons_of_ne_nil hnt
  refine ⟨c, f, ?_, ?_, ?_, ?_, ?_, hpc⟩
  · show (List.insertionSort costLE all_options).head? = some c
    rw [hc]
    rfl
  · show (List.insertionSort timeLE all_options).head? = some f
    rw [hf]
    rfl
  · exact head_insertionSort_min costLE all_options c (by rw [hc]; rfl)
  · exact head_insertionSort_min timeLE all_options f (by rw [hf]; rfl)
  · exact List.sorted_insertionSort costLE all_options

/-- Witness for C3 on the concrete two-option list (auto and bus). -/
theorem C3_student_ranking_witness :
    ∃ c f, cheapest [sampleAuto, sampleBus 0] = some c
      ∧ fastest [sampleAuto, sampleBus 0] = some f
      ∧ (∀ o ∈ [sampleAuto, sampleBus 0], c.cost ≤ o.cost)
      ∧ (∀ o ∈ [sampleAuto, sampleBus 0], f.time ≤ o.time)
      ∧ List.Sorted costLE (sorted_by_cost [sampleAuto, sampleBus 0])
      ∧ (sorted_by_cost [sampleAuto, sampleBus 0]).Perm [sampleAuto, sampleBus 0] :=
  C3_student_ranking [sampleAuto, sampleBus 0] (by simp)

/-! ## Theorems for claims C4 and C7 -/

/-- `splitFirst` misses exactly when the separator does not occur. -/
theorem splitFirst_of_not_mem (sep : Token) (l : List Token) (h : sep ∉ l) :
    splitFirst sep l = none := by
  induction l with
  | nil => rfl
  | cons a t ih =>
    simp only [List.mem_cons, not_or] at h
    simp only [splitFirst]
    rw [if_neg (Ne.symm h.1), ih h.2]

/-- `splitFirst` splits at the first occurrence of the separator. -/
theorem splitFirst_first_occurrence (sep : Token) (xs ys : List Token)
    (h : sep ∉ xs) :
    splitFirst sep (xs ++ sep :: ys) = some (xs, ys) := by
  induction xs with
  | nil => simp [splitFirst]
  | cons a t ih =>
    simp only [List.mem_cons, not_or] at h
    simp only [List.cons_append, splitFirst, List.append_eq]
    rw [if_neg (Ne.symm h.1), ih h.2]

/-- C4: every token list of the form "X from Y" — X non-empty with no "from"
inside it, Y non-empty, and no "to" or "go" keyword anywhere — parses via
Pattern 2.5 with origin Y and destination X; the origin is a named place, not
the current_location sentinel. -/
theorem C4_x_from_y (xs ys : List Token) (hx : xs ≠ []) (hy : ys ≠ [])
    (hfx : "from" ∉ xs)
    (hto : "to" ∉ xs ++ "from" :: ys) (_hgo : "go" ∉ xs ++ "from" :: ys) :
    parseIntent (xs ++ "from" :: ys) = some ⟨Place.named ys, Place.named xs⟩ := by
  have h1 : splitFirst "to" (xs ++ "from" :: ys) = none :=
    splitFirst_of_not_mem _ _ hto
  have h2 : splitFirst "from" (xs ++ "from" :: ys) = some (xs, ys) :=
    splitFirst_first_occurrence _ _ _ hfx
  simp only [parseIntent, h1, h2]
  rw [if_pos ⟨hx, hy⟩]

/-- Witness for C4: "majestic from hebbal" parses with origin hebbal and
destination majestic (the "in particular" instance of the claim). -/
theorem C4_x_from_y_witness :
    parseIntent ["majestic", "from", "hebbal"]
      = some ⟨Place.named ["hebbal"], Place.named ["majestic"]⟩ :=
  C4_x_from_y ["majestic"] ["hebbal"] (by simp) (by simp) (by simp) (by simp) (by simp)

/-- C7: city detection returns "mumbai" exactly when some Mumbai keyword
occurs as a substring of the query, returns the default city "bengaluru" when
no keyword matches, and the detected city never affects whether
origin/destination extraction succeeds: the full pipeline succeeds exactly
when extraction alone does. -/
theorem C7_city_detection (query : String) :
    ((∃ kw ∈ MUMBAI_KEYWORDS, kw.data <:+: query.data) → detect_city query = "mumbai")
      ∧ ((∀ kw ∈ MUMBAI_KEYWORDS, ¬ kw.data <:+: query.data) →
          detect_city query = DEFAULT_CITY)
      ∧ ((parseQuery query).isSome ↔ (parseIntent (tokenize query)).isSome) := by
  refine ⟨?_, ?_, ?_⟩
  · rintro ⟨kw, hkw, hinf⟩
    have hany : MUMBAI_KEYWORDS.any (containsKeyword query) = true := by
      rw [List.any_eq_true]
      exact ⟨kw, hkw, by simpa [containsKeyword] using hinf⟩
    simp [detect_city, CITY_KEYWORDS, List.find?, hany]
  · intro hall
    have hany : MUMBAI_KEYWORDS.any (containsKeyword query) = false := by
      rw [List.any_eq_false]
      intro kw hkw
      simpa [containsKeyword] using hall kw hkw
    simp [detect_city, CITY_KEYWORDS, List.find?, hany]
  · simp [parseQuery]

/-- Witness for C7: a Mumbai keyword occurs in "dadar to bandra" and the
detected city is indeed "mumbai". -/
theorem C7_city_detection_witness :
    (∃ kw ∈ MUMBAI_KEYWORDS, kw.data <:+: ("dadar to bandra").data)
      ∧ detect_city "dadar to bandra" = "mumbai" := by
  have hex : ∃ kw ∈ MUMBAI_KEYWORDS, kw.data <:+: ("dadar to bandra").data :=
    ⟨"dadar", by simp [MUMBAI_KEYWORDS], by decide⟩
  exact ⟨hex, (C7_city_detection "dadar to bandra").1 hex⟩

/-! ## Theorems for claims C6 and C8 -/

/-- C6: every failing translation or transcription call (network error or
non-OK HTTP status) returns the degraded fallback value — translateText the
original untranslated text, transcribeAudio an empty text with an error
message — rather than propagating the failure. -/
theorem C6_degraded_fallback (text base64Audio : String)
    (o₁ : FetchOutcome TranslateResult) (o₂ : FetchOutcome TranscribeResult)
    (h₁ : o₁.isFailure) (h₂ : o₂.isFailure) :
    translateText text o₁ = { translated_text := text, error := some "Translation failed" }
      ∧ transcribeAudio base64Audio o₂
        = { text := "", error := some "Transcription failed. Please try again." } := by
  constructor
  · cases o₁ with
    | networkError => rfl
    | response ok body =>
      cases ok with
      | false => rfl
      | true => exact absurd h₁ (by simp [FetchOutcome.isFailure])
  · cases o₂ with
    | networkError => rfl
    | response ok body =>
      cases ok with
      | false => rfl
      | true => exact absurd h₂ (by simp [FetchOutcome.isFailure])

/-- Witness for C6 at a concrete failing outcome (HTTP 500, ok = false) for
both calls. -/
theorem C6_degraded_fallback_witness :
    (FetchOutcome.response false
        ({ translated_text := "x", error := none } : TranslateResult)).isFailure
      ∧ (FetchOutcome.response false
          ({ text := "y", error := none } : TranscribeResult)).isFailure
      ∧ translateText "hello"
          (FetchOutcome.response false { translated_text := "x", error := none })
          = { translated_text := "hello", error := some "Translation failed" }
      ∧ transcribeAudio "AAAA"
          (FetchOutcome.response false { text := "y", error := none })
          = { text := "", error := some "Transcription failed. Please try again." } := by
  have h := C6_degraded_fallback "hello" "AAAA"
    (FetchOutcome.response false { translated_text := "x", error := none })
    (FetchOutcome.response false { text := "y", error := none }) rfl rfl
  exact ⟨rfl, rfl, h.1, h.2⟩

/-- C8: for every service in the fare table, the estimated price at distance
0 km with surge multiplier 1 equals exactly that service's base fare. -/
theorem C8_base_fare_at_zero (service : String) (rates : RideRates)
    (h : (service, rates) ∈ BASE_RATES) :
    (estimated_price rates 0 1 : ℚ) = rates.base := by
  fin_cases h <;> norm_num [estimated_price]

/-- Witness for C8 at the traditional auto service: its price at distance 0
with surge 1 is its base fare, 30. -/
theorem C8_base_fare_at_zero_witness :
    ("auto", (⟨30, 15⟩ : RideRates)) ∈ BASE_RATES
      ∧ (estimated_price ⟨30, 15⟩ 0 1 : ℚ) = (30 : ℚ) :=
  ⟨by simp [BASE_RATES], C8_base_fare_at_zero "auto" ⟨30, 15⟩ (by simp [BASE_RATES])⟩

/-! ## Theorems for claims C9 and C10 -/

/-- C9 counterexample: the claim says formatRouteResponse returns an HTML
string without throwing for every payload with any subset of the headline
picks absent; the concrete payload with most_comfortable and fastest absent
but door_to_door present makes the code read `fastest.cost` on an absent
`fastest`, which throws a TypeError. -/
theorem C9_counterexample :
    formatRouteResponse d2dOnlyPayload
      = Except.error "TypeError: cannot read properties of undefined (reading cost)" :=
  rfl

/-- C9 (amended): formatRouteResponse returns an HTML string without throwing
for every payload, EXCEPT that when most_comfortable is absent and
door_to_door is present, fastest must also be present; under that proviso
every subset of absent fields is safe. -/
theorem C9_total_unless (data : RoutePayload)
    (h : data.most_comfortable = none → data.door_to_door.isSome → data.fastest.isSome) :
    ∃ html, formatRouteResponse data = Except.ok html := by
  obtain ⟨origin, destination, ch, fa, dd, mc⟩ := data
  cases mc with
  | some m =>
    cases ch with
    | some c =>
      simp only [formatRouteResponse]
      split
      · exact ⟨_, rfl⟩
      · exact ⟨_, rfl⟩
    | none => exact ⟨_, rfl⟩
  | none =>
    cases dd with
    | none => exact ⟨_, rfl⟩
    | some d =>
      have hfa : fa.isSome := by simpa using h rfl (by simp)
      obtain ⟨f, rfl⟩ := Option.isSome_iff_exists.mp hfa
      simp only [formatRouteResponse]
      split
      · exact ⟨_, rfl⟩
      · exact ⟨_, rfl⟩

/-- Witness for C9 (amended): the payload with every headline pick absent
renders without error. -/
theorem C9_total_unless_witness :
    ∃ html, formatRouteResponse emptyPayload = Except.ok html :=
  C9_total_unless emptyPayload (by intro _ hd; simp [emptyPayload] at hd)

/-- One step of the language state machine keeps `state.language` inside the
supported set. -/
theorem appStep_preserves (s : AppState) (e : AppEvent)
    (h : s.language ∈ SUPPORTED_LANGUAGES) :
    (appStep s e).language ∈ SUPPORTED_LANGUAGES := by
  cases e with
  | setLang lang =>
    simp only [appStep, setLanguage]
    split
    · next hl => exact hl
    · simp [DEFAULT_LANGUAGE, SUPPORTED_LANGUAGES]
  | storageWrite v => exact h
  | loadPrefs =>
    simp only [appStep, loadSavedPreferences]
    cases s.storedLanguage with
    | none => exact h
    | some savedLang =>
      simp only
      split
      · next hl => exact hl
      · exact h

/-- C10: after initialization `state.language` stays in
CONFIG.SUPPORTED_LANGUAGES under every sequence of setLanguage calls,
external localStorage writes and loadSavedPreferences calls; moreover
setLanguage replaces an unsupported argument with the default "en" in both
the state and localStorage, and loadSavedPreferences leaves the state
unchanged when the stored value is outside the supported set. -/
theorem C10_language_invariant :
    (∀ events : List AppEvent,
        (events.foldl appStep initState).language ∈ SUPPORTED_LANGUAGES)
      ∧ (∀ lang s, lang ∉ SUPPORTED_LANGUAGES →
          (setLanguage lang s).language = DEFAULT_LANGUAGE
            ∧ (setLanguage lang s).storedLanguage = some DEFAULT_LANGUAGE)
      ∧ (∀ s savedLang, s.storedLanguage = some savedLang →
          savedLang ∉ SUPPORTED_LANGUAGES → loadSavedPreferences s = s) := by
  refine ⟨?_, ?_, ?_⟩
  · have key : ∀ (events : List AppEvent) (s : AppState),
        s.language ∈ SUPPORTED_LANGUAGES →
        (events.foldl appStep s).language ∈ SUPPORTED_LANGUAGES := by
      intro events
      induction events with
      | nil => intro s hs; exact hs
      | cons e t ih => intro s hs; exact ih (appStep s e) (appStep_preserves s e hs)
    intro events
    exact key events initState (by simp [initState, DEFAULT_LANGUAGE, SUPPORTED_LANGUAGES])
  · intro lang s hlang
    constructor
    · simp [setLanguage, hlang]
    · simp [setLanguage, hlang]
  · intro s savedLang hstored hns
    simp [loadSavedPreferences, hstored, hns]

/-- Witness for C10: after a setLanguage call with the unsupported language
"fr" from the initial state, the language is in the supported set, and the
call stored the default "en" in both the state and localStorage. -/
theorem C10_language_invariant_witness :
    (([AppEvent.setLang "fr"].foldl appStep initState).language ∈ SUPPORTED_LANGUAGES)
      ∧ (setLanguage "fr" initState).language = DEFAULT_LANGUAGE
      ∧ (setLanguage "fr" initState).storedLanguage = some DEFAULT_LANGUAGE := by
  have h := C10_language_invariant
  have hfr : "fr" ∉ SUPPORTED_LANGUAGES := by simp [SUPPORTED_LANGUAGES]
  exact ⟨h.1 [AppEvent.setLang "fr"], (h.2.1 "fr" initState hfr).1, (h.2.1 "fr" initState hfr).2⟩

end TransitAssistant
